import Mathlib

/-
Verification of the Session Lifecycle Engine of the study-session bot
(`src/main.py`) against its natural-language specification.

The Python module keeps all state in four process-wide dictionaries
(`group_sessions`, `user_profiles`, `active_sessions`, `bot_stats`).  The
shallow embedding below models a dictionary as an association list with
Python-dict insert/delete semantics, the process state as a `BotState`
record, and each engine operation as a pure state-transforming function
translated from the corresponding Python function.  External I/O performed
by the source (Telegram message sending, pinning, logging) carries no engine
state and is omitted; the identity lookup `bot.get_chat` is modelled as an
explicit `resolver` parameter, and `datetime.now()` / the event-loop clock
as an explicit `now : Nat` parameter.  An `asyncio` timer task is modelled
by the `timer_running` flag of a session: `timer_running = true` exactly
when the session holds a live (not yet done) timer task.
-/

namespace StudyBot

/-- Association list with Python-dict semantics: lookup of the binding of a
key (keys are unique in a dict, so the first binding is the binding). -/
def lookupA {α β : Type} [DecidableEq α] : List (α × β) → α → Option β
  | [], _ => none
  | (k, v) :: rest, key => if k = key then some v else lookupA rest key

/-- Python-dict assignment `d[key] = val`: replace the binding in place when
the key is present, append otherwise (dicts preserve insertion order). -/
def insertA {α β : Type} [DecidableEq α] : List (α × β) → α → β → List (α × β)
  | [], key, val => [(key, val)]
  | (k, v) :: rest, key, val =>
      if k = key then (k, val) :: rest else (k, v) :: insertA rest key val

/-- Python-dict deletion `del d[key]`: every binding of the key is removed
(a dict holds at most one, so this is the faithful model). -/
def eraseA {α β : Type} [DecidableEq α] : List (α × β) → α → List (α × β)
  | [], _ => []
  | (k, v) :: rest, key =>
      if k = key then eraseA rest key else (k, v) :: eraseA rest key

/-- Python-dict membership `key in d`. -/
def memA {α β : Type} [DecidableEq α] (l : List (α × β)) (key : α) : Bool :=
  (lookupA l key).isSome

/-- A Telegram user object as the handlers receive it (`aiogram.types.User`):
identity fields used by the engine. -/
structure TgUser where
  id : Int
  username : Option String
  first_name : String
  last_name : Option String
deriving DecidableEq

/-- Translation of `get_display_name`: prefer `@username`, then
"first last", then the first name alone. -/
def get_display_name (u : TgUser) : String :=
  match u.username with
  | some un => "@" ++ un
  | none =>
    match u.last_name with
    | some ln => u.first_name ++ " " ++ ln
    | none => u.first_name

/-- A participant record as stored in `session.participants[user_id]`:
`\x7b"name": ..., "join_time": ..., "active": ...\x7d`. -/
structure Participant where
  name : String
  join_time : Nat
  active : Bool
deriving DecidableEq

/-- The per-session counters `session.stats`. -/
structure SessionStats where
  joins : Nat
  leaves : Nat
  extens : Nat
  completions : Nat
deriving DecidableEq

/-- Translation of the `StudySession` dataclass.  `timer_running` models
`timer_task is not None and not timer_task.done()`. -/
structure StudySession where
  session_id : String
  chat_id : Int
  creator_id : Int
  creator_name : String
  participants : List (Int × Participant)
  message_id : Option Int := none
  start_time : Nat := 0
  time_left : Int := 55 * 60
  is_active : Bool := true
  is_pinned : Bool := false
  last_update : Nat := 0
  stats : SessionStats := ⟨0, 0, 0, 0⟩
  timer_running : Bool := false
deriving DecidableEq

/-- The `UserStatus` enum. -/
inductive UserStatus where
  | active
  | inactive
  | banned
deriving DecidableEq

/-- The cumulative `study_stats` dictionary of a profile. -/
structure StudyStats where
  total_sessions : Nat
  total_time : Int
  completed_sessions : Nat
  last_session : Option Nat
deriving DecidableEq

/-- The `preferences` dictionary of a profile. -/
structure Prefs where
  notifications : Bool
  motivation_messages : Bool
  language : String
deriving DecidableEq

/-- Translation of the `UserProfile` dataclass. -/
structure UserProfile where
  user_id : Int
  username : Option String
  first_name : String
  last_name : Option String
  join_date : Nat
  status : UserStatus := UserStatus.active
  study_stats : StudyStats
  achievements : List String
  prefs : Prefs
deriving DecidableEq

/-- The whole mutable process state: the four module-level dictionaries,
with the three counters of `bot_stats` inlined as fields. -/
structure BotState where
  group_sessions : List (String × StudySession)
  user_profiles : List (Int × UserProfile)
  active_sessions : List (Int × String)
  total_sessions_count : Nat
  active_users : Nat
  total_participations : Nat
deriving DecidableEq

/-- The zeroed `study_stats` dictionary a fresh profile starts with. -/
def freshStudyStats : StudyStats :=
  { total_sessions := 0, total_time := 0, completed_sessions := 0, last_session := none }

/-- The default `preferences` dictionary. -/
def freshPrefs : Prefs :=
  { notifications := true, motivation_messages := true, language := "ar" }

/-- Translation of `create_user_profile`: build a fresh profile from the
resolved user, store it in `user_profiles[user.id]`, and bump the
`active_users` counter. -/
def create_user_profile (now : Nat) (u : TgUser) (st : BotState) : UserProfile × BotState :=
  let profile : UserProfile :=
    { user_id := u.id, username := u.username, first_name := u.first_name,
      last_name := u.last_name, join_date := now, status := UserStatus.active,
      study_stats := freshStudyStats, achievements := [], prefs := freshPrefs }
  (profile, { st with user_profiles := insertA st.user_profiles u.id profile,
                      active_users := st.active_users + 1 })

/-- The basic fallback profile built in the except-branch of
`get_user_profile` (placeholder first name, zeroed stats).  Note that the
source returns this object without storing it in `user_profiles`. -/
def fallback_profile (now : Nat) (uid : Int) : UserProfile :=
  { user_id := uid, username := none, first_name := "مستخدم", last_name := none,
    join_date := now, status := UserStatus.active, study_stats := freshStudyStats,
    achievements := [], prefs := freshPrefs }

/-- Translation of `get_user_profile`.  The `resolver` models
`bot.get_chat(user_id)`: `some u` when the platform lookup succeeds
(the platform guarantees `u.id = user_id`), `none` when it raises.  On a
hit the stored profile is returned; on a miss with a successful lookup the
profile is created and stored; on a miss with a failed lookup the fallback
profile is returned and — exactly as in the source — not stored. -/
def get_user_profile (resolver : Int → Option TgUser) (now : Nat) (uid : Int)
    (st : BotState) : UserProfile × BotState :=
  match lookupA st.user_profiles uid with
  | some p => (p, st)
  | none =>
    match resolver uid with
    | some u => create_user_profile now u st
    | none => (fallback_profile now uid, st)

/-- The field mutations `update_user_stats` performs on the fetched profile:
bump `total_sessions`, add the duration to `total_time`, stamp
`last_session`, and when the duration reaches the 50-minute completion
threshold bump `completed_sessions` and append the `first_completion`
achievement when it is not already present. -/
def record_participation (now : Nat) (d : Int) (p : UserProfile) : UserProfile :=
  let ss := p.study_stats
  { p with
    study_stats :=
      { total_sessions := ss.total_sessions + 1,
        total_time := ss.total_time + d,
        completed_sessions :=
          if 50 * 60 ≤ d then ss.completed_sessions + 1 else ss.completed_sessions,
        last_session := some now },
    achievements :=
      if 50 * 60 ≤ d then
        (if "first_completion" ∈ p.achievements then p.achievements
         else p.achievements ++ ["first_completion"])
      else p.achievements }

/-- Translation of `update_user_stats`: fetch the profile through
`get_user_profile` and mutate it in place.  In Python the mutation persists
exactly when the fetched dataclass is the object stored in `user_profiles`
(a hit, or a freshly created profile) — which is the case exactly when the
key is present after the fetch; the mutation of the unsaved fallback
profile is lost. -/
def update_user_stats (resolver : Int → Option TgUser) (now : Nat) (uid : Int)
    (d : Int) (st : BotState) : BotState :=
  let pr := get_user_profile resolver now uid st
  if memA pr.2.user_profiles uid then
    { pr.2 with user_profiles := insertA pr.2.user_profiles uid (record_participation now d pr.1) }
  else pr.2

/-- Translation of `create_study_session`: a fresh 55-minute session with an
empty participant set and zeroed counters, stored under the generated id,
with the room index pointed at it and the global session counter bumped.
The randomly generated id of `generate_session_id` is passed in as `sid`. -/
def create_study_session (now : Nat) (sid : String) (chat_id : Int) (creator : TgUser)
    (st : BotState) : StudySession × BotState :=
  let session : StudySession :=
    { session_id := sid, chat_id := chat_id, creator_id := creator.id,
      creator_name := get_display_name creator, participants := [],
      message_id := none, start_time := now, time_left := 55 * 60,
      is_active := true, is_pinned := false, last_update := now,
      stats := { joins := 0, leaves := 0, extens := 0, completions := 0 },
      timer_running := false }
  (session, { st with group_sessions := insertA st.group_sessions sid session,
                      active_sessions := insertA st.active_sessions chat_id sid,
                      total_sessions_count := st.total_sessions_count + 1 })

/-- Translation of `get_active_session`: follow the room index, then the
record store. -/
def get_active_session (chat_id : Int) (st : BotState) : Option StudySession :=
  match lookupA st.active_sessions chat_id with
  | some sid => lookupA st.group_sessions sid
  | none => none

/-- Translation of `end_session`: when the id resolves, flip `is_active`
off, cancel a live timer task, drop the room from the active index, roll up
the stats of every participant with elapsed `55*60 - time_left`, and return
the (mutated) record; otherwise return `none` and change nothing. -/
def end_session (resolver : Int → Option TgUser) (now : Nat) (sid : String)
    (st : BotState) : Option StudySession × BotState :=
  match lookupA st.group_sessions sid with
  | none => (none, st)
  | some session =>
    let session1 := { session with is_active := false, timer_running := false }
    let st1 := { st with group_sessions := insertA st.group_sessions sid session1 }
    let st2 := { st1 with active_sessions := eraseA st1.active_sessions session.chat_id }
    let st3 := session1.participants.foldl
      (fun acc e => update_user_stats resolver now e.1 (55 * 60 - session.time_left) acc) st2
    (some session1, st3)

/-- Translation of `end_group_session_automatically` (state effect only;
the rest of the source function is message editing and unpinning): flip
`is_active` off and drop the room from the active index.  No stats rollup
is performed and the timer task is not cancelled. -/
def end_group_session_automatically (sid : String) (st : BotState) : BotState :=
  match lookupA st.group_sessions sid with
  | none => st
  | some session =>
    { st with group_sessions := insertA st.group_sessions sid { session with is_active := false },
              active_sessions := eraseA st.active_sessions session.chat_id }

/-- Translation of `end_private_session_automatically` (state effect only;
the rest is a farewell message): identical to the group variant — flip
`is_active` off and drop the room from the active index; no stats rollup. -/
def end_private_session_automatically (sid : String) (st : BotState) : BotState :=
  match lookupA st.group_sessions sid with
  | none => st
  | some session =>
    { st with group_sessions := insertA st.group_sessions sid { session with is_active := false },
              active_sessions := eraseA st.active_sessions session.chat_id }

/-- One iteration of the `group_session_timer` loop body after its 60 s
sleep: exit when the session is gone or inactive (the task finishes, so the
live-timer flag is cleared), otherwise decrement `time_left` by 60, stamp
`last_update`, and when the countdown reaches 0 trigger automatic
termination and exit. -/
def group_timer_tick (now : Nat) (sid : String) (st : BotState) : BotState :=
  match lookupA st.group_sessions sid with
  | none => st
  | some session =>
    if session.is_active = false then
      { st with group_sessions :=
          insertA st.group_sessions sid { session with timer_running := false } }
    else
      let session1 := { session with time_left := session.time_left - 60, last_update := now }
      let st1 := { st with group_sessions := insertA st.group_sessions sid session1 }
      if session1.time_left ≤ 0 then
        let st2 := end_group_session_automatically sid st1
        match lookupA st2.group_sessions sid with
        | some s2 =>
            { st2 with
              group_sessions := insertA st2.group_sessions sid { s2 with timer_running := false } }
        | none => st2
      else st1

/-- The passage of one 60 s tick interval for a session: the timer loop
body runs exactly when a live timer task exists for the session; with no
live timer, nothing happens to the session as time passes. -/
def tick_interval (now : Nat) (sid : String) (st : BotState) : BotState :=
  match lookupA st.group_sessions sid with
  | some session => if session.timer_running then group_timer_tick now sid st else st
  | none => st

/-- The outcomes of the `join_session` callback handler.  `joined` carries
the post-join participant count shown on the keyboard and whether this join
spawned the countdown timer task. -/
inductive JoinResult where
  | sessionMissing
  | sessionEnded
  | alreadyJoined
  | joined (participantCount : Nat) (timerSpawned : Bool)
deriving DecidableEq

/-- Translation of the `join_session` callback handler (state effect): the
session must exist and be active; a user already among the participants
gets the "already joined" answer and nothing changes; otherwise the
participant record is inserted, `stats.joins` and the process-wide
participation counter are bumped, and when the post-join count reaches 3
with no live timer task the group countdown timer is spawned. -/
def join_session (now : Nat) (sid : String) (user : TgUser) (st : BotState) :
    JoinResult × BotState :=
  match lookupA st.group_sessions sid with
  | none => (JoinResult.sessionMissing, st)
  | some session =>
    if session.is_active = false then (JoinResult.sessionEnded, st)
    else if memA session.participants user.id then (JoinResult.alreadyJoined, st)
    else
      let participant : Participant :=
        { name := get_display_name user, join_time := now, active := true }
      let session1 := { session with
        participants := insertA session.participants user.id participant,
        stats := { session.stats with joins := session.stats.joins + 1 } }
      let participant_count := session1.participants.length
      let spawn : Bool := decide (3 ≤ participant_count) && !session1.timer_running
      let session2 := if spawn then { session1 with timer_running := true } else session1
      let st1 := { st with
        group_sessions := insertA st.group_sessions sid session2,
        total_participations := st.total_participations + 1 }
      (JoinResult.joined participant_count spawn, st1)

/-- The outcomes of the `/startsession` group command (state effect). -/
inductive StartResult where
  | roomAlreadyActive (existing : StudySession)
  | started (session : StudySession)
deriving DecidableEq

/-- Translation of `start_session_group` (state effect, after the admin
permission check): when the room already has an active session, answer with
the end/status keyboard for the existing one and change nothing; otherwise
create the session through `create_study_session`. -/
def start_session_group (now : Nat) (sid : String) (chat_id : Int) (creator : TgUser)
    (st : BotState) : StartResult × BotState :=
  match get_active_session chat_id st with
  | some existing => (StartResult.roomAlreadyActive existing, st)
  | none =>
    let pr := create_study_session now sid chat_id creator st
    (StartResult.started pr.1, pr.2)

/-- Translation of the private-chat branch of `start_session_info` (state
effect): unconditionally build a session with the pressing user already
enrolled (`stats.joins = 1`), store it, point the room index at it, bump
the global session counter, and spawn the private countdown timer.  The
source performs no check for an existing active session in this branch. -/
def start_session_info_private (now : Nat) (sid : String) (chat_id : Int) (user : TgUser)
    (st : BotState) : StudySession × BotState :=
  let session : StudySession :=
    { session_id := sid, chat_id := chat_id, creator_id := user.id,
      creator_name := get_display_name user,
      participants :=
        [(user.id, { name := get_display_name user, join_time := now, active := true })],
      message_id := none, start_time := now, time_left := 55 * 60,
      is_active := true, is_pinned := false, last_update := now,
      stats := { joins := 1, leaves := 0, extens := 0, completions := 0 },
      timer_running := true }
  (session, { st with group_sessions := insertA st.group_sessions sid session,
                      active_sessions := insertA st.active_sessions chat_id sid,
                      total_sessions_count := st.total_sessions_count + 1 })

/-- The outcomes of the `extend_session` callback handler. -/
inductive ExtendResult where
  | notYourButton
  | sessionMissing
  | extended
deriving DecidableEq

/-- Translation of the `extend_session` callback handler (state effect),
taking the session id and user id parsed from the callback data: the
presser must be the button's user and the session id must resolve; then
`time_left` is reset to the full 55 minutes and `stats.extens` is
bumped.  The source performs no `is_active` check. -/
def extend_session (sid : String) (button_user : Int) (caller : Int) (st : BotState) :
    ExtendResult × BotState :=
  if caller ≠ button_user then (ExtendResult.notYourButton, st)
  else
    match lookupA st.group_sessions sid with
    | none => (ExtendResult.sessionMissing, st)
    | some session =>
      let session1 := { session with
        time_left := 55 * 60,
        stats := { session.stats with extens := session.stats.extens + 1 } }
      (ExtendResult.extended, { st with group_sessions := insertA st.group_sessions sid session1 })

/-- The outcomes of the `end_session_user` callback handler. -/
inductive EndUserResult where
  | notYourButton
  | confirmed
deriving DecidableEq

/-- Translation of the `end_session_user` callback handler (state effect),
taking the session id and user id parsed from the callback data: when the
presser is the button's user it answers the callback with a termination
confirmation and sends a farewell message — and performs no session or
profile mutation whatsoever (the session id is never even looked up). -/
def end_session_user (sid : String) (button_user : Int) (caller : Int) (st : BotState) :
    EndUserResult × BotState :=
  if caller ≠ button_user then (EndUserResult.notYourButton, st)
  else (EndUserResult.confirmed, st)

/-- The read-only projection of a session rendered by the `session_status`
callback handler. -/
structure SessionSnapshot where
  session_id : String
  time_left : Int
  participant_count : Nat
  is_active : Bool
  last_update : Nat
deriving DecidableEq

/-- Translation of the `session_status` callback handler: resolve the id in
the record store and render the current record; never mutates. -/
def session_status (sid : String) (st : BotState) : Option SessionSnapshot :=
  match lookupA st.group_sessions sid with
  | none => none
  | some session =>
      some { session_id := sid, time_left := session.time_left,
             participant_count := session.participants.length,
             is_active := session.is_active, last_update := session.last_update }

/-! Concrete inputs used to exercise the model on the spec's scenarios. -/

/-- The empty process state at module load. -/
def st_empty : BotState :=
  { group_sessions := [], user_profiles := [], active_sessions := [],
    total_sessions_count := 0, active_users := 0, total_participations := 0 }

/-- A user object with numeric id `i` and a bare first name. -/
def tguser (i : Int) : TgUser :=
  { id := i, username := none, first_name := "u", last_name := none }

/-- A stored profile with zeroed statistics, as after first contact. -/
def zero_profile (uid : Int) : UserProfile :=
  { user_id := uid, username := none, first_name := "u", last_name := none,
    join_date := 0, status := UserStatus.active, study_stats := freshStudyStats,
    achievements := [], prefs := freshPrefs }

/-- An identity resolver for which every platform lookup fails. -/
def noResolver : Int → Option TgUser := fun _ => none

/-- A generic participant record. -/
def somePart : Participant := { name := "u", join_time := 0, active := true }

/-- C1 scenario, initial state: users 2, 3, 4 already have stored zeroed
profiles, no session yet. -/
def c1_st0 : BotState :=
  { st_empty with
      user_profiles := [(2, zero_profile 2), (3, zero_profile 3), (4, zero_profile 4)] }

/-- C1 scenario: session `s1` started in room 100. -/
def c1_st1 : BotState := (start_session_group 0 "s1" 100 (tguser 1) c1_st0).2

/-- C1 scenario: user 2 joined. -/
def c1_st2 : BotState := (join_session 1 "s1" (tguser 2) c1_st1).2

/-- C1 scenario: user 3 joined. -/
def c1_st3 : BotState := (join_session 2 "s1" (tguser 3) c1_st2).2

/-- C1 scenario: user 4 joined (quorum reached, timer spawned). -/
def c1_st4 : BotState := (join_session 3 "s1" (tguser 4) c1_st3).2

/-- C1 scenario: 55 tick intervals of 60 s pass. -/
def c1_final : BotState :=
  (List.range 55).foldl (fun st k => tick_interval (k + 4) "s1" st) c1_st4

/-- C1 witness state: one room with one recorded session. -/
def c1w_s : StudySession :=
  { session_id := "g", chat_id := 5, creator_id := 1, creator_name := "u",
    participants := [(2, somePart)] }

/-- C1 witness state wrapper. -/
def c1w_st : BotState :=
  { st_empty with group_sessions := [("g", c1w_s)], active_sessions := [(5, "g")],
                  user_profiles := [(2, zero_profile 2)] }

/-- C2 scenario: a running session in room 100 whose single participant is
user 7, with user 7's zeroed profile stored. -/
def c2_sess : StudySession :=
  { session_id := "s", chat_id := 100, creator_id := 7, creator_name := "u",
    participants := [(7, somePart)], stats := ⟨1, 0, 0, 0⟩ }

/-- C2 scenario: initial state. -/
def c2_st : BotState :=
  { st_empty with group_sessions := [("s", c2_sess)],
                  user_profiles := [(7, zero_profile 7)],
                  active_sessions := [(100, "s")] }

/-- C2 scenario: state after the first manual End. -/
def c2_st1 : BotState := (end_session noResolver 10 "s" c2_st).2

/-- C2 scenario: state after a second manual End of the same session. -/
def c2_st2 : BotState := (end_session noResolver 20 "s" c2_st1).2

/-- C2 scenario: the terminal record as stored after the first End. -/
def c2_sess1 : StudySession := { c2_sess with is_active := false, timer_running := false }

/-- C2 scenario: user 7's profile after the first End (elapsed 0). -/
def c2_p1 : UserProfile := record_participation 10 0 (zero_profile 7)

/-- C3 scenario: state after one private start in chat 100. -/
def c3_st1 : BotState := (start_session_info_private 0 "p1" 100 (tguser 7) st_empty).2

/-- C3 scenario: the first private session record. -/
def c3_s1 : StudySession := (start_session_info_private 0 "p1" 100 (tguser 7) st_empty).1

/-- C3 scenario: state after a second private start in the same chat. -/
def c3_st2 : BotState := (start_session_info_private 1 "p2" 100 (tguser 7) c3_st1).2

/-- C4 scenario: an active private session `ps` of user 7, with user 7's
zeroed profile stored. -/
def c4_st : BotState :=
  { (start_session_info_private 0 "ps" 7 (tguser 7) st_empty).2 with
      user_profiles := [(7, zero_profile 7)] }

/-- C5 scenario: an ended session retained in the record store. -/
def c5_sess : StudySession :=
  { session_id := "e", chat_id := 100, creator_id := 7, creator_name := "u",
    participants := [(7, somePart)], time_left := 0, is_active := false,
    stats := ⟨1, 0, 0, 0⟩ }

/-- C5 scenario: state holding only the ended session. -/
def c5_st : BotState := { st_empty with group_sessions := [("e", c5_sess)] }

/-- C6 witness state: an active session whose participant set already
contains user 7. -/
def c6_sess : StudySession :=
  { session_id := "g", chat_id := 100, creator_id := 1, creator_name := "u",
    participants := [(7, somePart)], stats := ⟨1, 0, 0, 0⟩ }

/-- C6 witness state wrapper. -/
def c6_st : BotState :=
  { st_empty with group_sessions := [("g", c6_sess)], active_sessions := [(100, "g")] }

/-- C7 scenario: group session `g1` started in room 200. -/
def c7_st0 : BotState := (start_session_group 0 "g1" 200 (tguser 1) st_empty).2

/-- C7 scenario: user 2 joined (count 1). -/
def c7_st1 : BotState := (join_session 1 "g1" (tguser 2) c7_st0).2

/-- C7 scenario: user 3 joined (count 2). -/
def c7_st2 : BotState := (join_session 2 "g1" (tguser 3) c7_st1).2

/-- C7 scenario: the third join (count 3, quorum). -/
def c7_join3 : JoinResult × BotState := join_session 3 "g1" (tguser 4) c7_st2

/-- C7 scenario: state after the third join. -/
def c7_st3 : BotState := c7_join3.2

/-- C7 scenario: the session record stored after the third join (quorum
reached, timer live). -/
def c7_sess3 : StudySession :=
  { session_id := "g1", chat_id := 200, creator_id := 1, creator_name := "u",
    participants := [(2, ⟨"u", 1, true⟩), (3, ⟨"u", 2, true⟩), (4, ⟨"u", 3, true⟩)],
    message_id := none, start_time := 0, time_left := 3300, is_active := true,
    is_pinned := false, last_update := 0, stats := ⟨3, 0, 0, 0⟩, timer_running := true }

/-- C8 witness state: user 7 has a stored zeroed profile. -/
def c8_st : BotState := { st_empty with user_profiles := [(7, zero_profile 7)] }

/-- C9 witness state: one running session with one participant. -/
def c9_sess : StudySession :=
  { session_id := "r", chat_id := 42, creator_id := 1, creator_name := "u",
    participants := [(2, somePart)], stats := ⟨1, 0, 0, 0⟩ }

/-- C9 witness state wrapper. -/
def c9_st : BotState :=
  { st_empty with group_sessions := [("r", c9_sess)], active_sessions := [(42, "r")],
                  user_profiles := [(2, zero_profile 2)] }

/-- C10 resolver: the platform lookup succeeds for user 7 only. -/
def c10_res : Int → Option TgUser := fun i => if i = 7 then some (tguser 7) else none

/-- C10 scenario: state after a failed-lookup first contact of user 9. -/
def c10_st1 : BotState := (get_user_profile noResolver 0 9 st_empty).2

/-! Helper lemmas about the dictionary model. -/

theorem lookupA_insertA_self {α β : Type} [DecidableEq α] (l : List (α × β)) (k : α) (v : β) :
    lookupA (insertA l k v) k = some v := by
  induction l with
  | nil => simp [insertA, lookupA]
  | cons hd tl ih =>
    obtain ⟨k1, v1⟩ := hd
    by_cases h : k1 = k
    · subst h
      simp [insertA, lookupA]
    · simp [insertA, lookupA, h, ih]

theorem lookupA_insertA_ne {α β : Type} [DecidableEq α] (l : List (α × β)) {k k' : α} (v : β)
    (h : k' ≠ k) : lookupA (insertA l k v) k' = lookupA l k' := by
  have h2 : k ≠ k' := Ne.symm h
  induction l with
  | nil => simp [insertA, lookupA, h2]
  | cons hd tl ih =>
    obtain ⟨k1, v1⟩ := hd
    by_cases hk : k1 = k
    · subst hk
      simp [insertA, lookupA, h2]
    · simp [insertA, lookupA, hk, ih]

theorem lookupA_eraseA_self {α β : Type} [DecidableEq α] (l : List (α × β)) (k : α) :
    lookupA (eraseA l k) k = none := by
  induction l with
  | nil => rfl
  | cons hd tl ih =>
    obtain ⟨k1, v1⟩ := hd
    by_cases h : k1 = k
    · simp [eraseA, h, ih]
    · simp [eraseA, lookupA, h, ih]

theorem memA_insertA_self {α β : Type} [DecidableEq α] (l : List (α × β)) (k : α) (v : β) :
    memA (insertA l k v) k = true := by
  simp [memA, lookupA_insertA_self]

theorem length_insertA {α β : Type} [DecidableEq α] (l : List (α × β)) (k : α) (v : β)
    (h : memA l k = false) : (insertA l k v).length = l.length + 1 := by
  induction l with
  | nil => rfl
  | cons hd tl ih =>
    obtain ⟨k1, v1⟩ := hd
    by_cases hk : k1 = k
    · simp [memA, lookupA, hk] at h
    · have htl : memA tl k = false := by
        simpa [memA, lookupA, hk] using h
      simp [insertA, hk, ih htl]

/-! Helper lemmas about the engine operations. -/

theorem get_user_profile_hit (r : Int → Option TgUser) (now : Nat) (uid : Int)
    (st : BotState) (p : UserProfile) (h : lookupA st.user_profiles uid = some p) :
    get_user_profile r now uid st = (p, st) := by
  simp [get_user_profile, h]

theorem get_user_profile_group_sessions (r : Int → Option TgUser) (now : Nat) (uid : Int)
    (st : BotState) : (get_user_profile r now uid st).2.group_sessions = st.group_sessions := by
  unfold get_user_profile
  cases hl : lookupA st.user_profiles uid with
  | some p => rfl
  | none =>
    cases hr : r uid with
    | some u => rfl
    | none => rfl

theorem get_user_profile_active_sessions (r : Int → Option TgUser) (now : Nat) (uid : Int)
    (st : BotState) : (get_user_profile r now uid st).2.active_sessions = st.active_sessions := by
  unfold get_user_profile
  cases hl : lookupA st.user_profiles uid with
  | some p => rfl
  | none =>
    cases hr : r uid with
    | some u => rfl
    | none => rfl

theorem update_user_stats_group_sessions (r : Int → Option TgUser) (now : Nat) (uid : Int)
    (d : Int) (st : BotState) :
    (update_user_stats r now uid d st).group_sessions = st.group_sessions := by
  unfold update_user_stats
  by_cases h : memA (get_user_profile r now uid st).2.user_profiles uid
  · simp [h, get_user_profile_group_sessions]
  · simp [h, get_user_profile_group_sessions]

theorem update_user_stats_active_sessions (r : Int → Option TgUser) (now : Nat) (uid : Int)
    (d : Int) (st : BotState) :
    (update_user_stats r now uid d st).active_sessions = st.active_sessions := by
  unfold update_user_stats
  by_cases h : memA (get_user_profile r now uid st).2.user_profiles uid
  · simp [h, get_user_profile_active_sessions]
  · simp [h, get_user_profile_active_sessions]

theorem foldl_update_group_sessions (r : Int → Option TgUser) (now : Nat) (d : Int)
    (l : List (Int × Participant)) (st : BotState) :
    (l.foldl (fun acc e => update_user_stats r now e.1 d acc) st).group_sessions =
      st.group_sessions := by
  induction l generalizing st with
  | nil => rfl
  | cons hd tl ih => rw [List.foldl_cons, ih, update_user_stats_group_sessions]

theorem foldl_update_active_sessions (r : Int → Option TgUser) (now : Nat) (d : Int)
    (l : List (Int × Participant)) (st : BotState) :
    (l.foldl (fun acc e => update_user_stats r now e.1 d acc) st).active_sessions =
      st.active_sessions := by
  induction l generalizing st with
  | nil => rfl
  | cons hd tl ih => rw [List.foldl_cons, ih, update_user_stats_active_sessions]

theorem update_user_stats_present (r : Int → Option TgUser) (now : Nat) (uid : Int)
    (d : Int) (st : BotState) (p : UserProfile)
    (h : lookupA st.user_profiles uid = some p) :
    lookupA (update_user_stats r now uid d st).user_profiles uid =
      some (record_participation now d p) := by
  unfold update_user_stats
  rw [get_user_profile_hit r now uid st p h]
  simp [memA, h, lookupA_insertA_self]

theorem end_session_eq (r : Int → Option TgUser) (now : Nat) (sid : String)
    (st : BotState) (s : StudySession) (h : lookupA st.group_sessions sid = some s) :
    end_session r now sid st =
      (some { s with is_active := false, timer_running := false },
       s.participants.foldl
         (fun acc e => update_user_stats r now e.1 (55 * 60 - s.time_left) acc)
         { st with
             group_sessions :=
               insertA st.group_sessions sid { s with is_active := false, timer_running := false },
             active_sessions := eraseA st.active_sessions s.chat_id }) := by
  unfold end_session
  rw [h]

theorem end_group_auto_eq (sid : String) (st : BotState) (s : StudySession)
    (h : lookupA st.group_sessions sid = some s) :
    end_group_session_automatically sid st =
      { st with group_sessions := insertA st.group_sessions sid { s with is_active := false },
                active_sessions := eraseA st.active_sessions s.chat_id } := by
  unfold end_group_session_automatically
  rw [h]

theorem end_private_auto_eq (sid : String) (st : BotState) (s : StudySession)
    (h : lookupA st.group_sessions sid = some s) :
    end_private_session_automatically sid st =
      { st with group_sessions := insertA st.group_sessions sid { s with is_active := false },
                active_sessions := eraseA st.active_sessions s.chat_id } := by
  unfold end_private_session_automatically
  rw [h]

/-! Claim theorems. -/

/-- C1, counterexample: in the spec's own scenario — session `s1` started in
room 100 with duration 3300 s, users 2, 3, 4 join, 55 ticks of 60 s pass —
the session does auto-terminate with `time_left` at 0 and the room index
cleared, but no participant receives a stats update: the stored profiles of
users 2, 3, 4 still show `total_sessions = 0` and `total_time = 0`, refuting
the claim that the rollup runs for every participant with elapsed 3300. -/
theorem c1_counterexample :
    (lookupA c1_final.group_sessions "s1").map (fun s => (s.is_active, s.time_left)) =
      some (false, 0) ∧
    lookupA c1_final.active_sessions 100 = none ∧
    (lookupA c1_final.user_profiles 2).map (fun p => p.study_stats.total_sessions) = some 0 ∧
    (lookupA c1_final.user_profiles 3).map (fun p => p.study_stats.total_sessions) = some 0 ∧
    (lookupA c1_final.user_profiles 4).map (fun p => p.study_stats.total_sessions) = some 0 ∧
    (lookupA c1_final.user_profiles 2).map (fun p => p.study_stats.total_time) = some 0 := by
  set_option maxRecDepth 100000 in decide

/-- C1, amended: when the timer subsystem observes `remainingSeconds` reach
0, automatic termination (group and private alike) sets the session
inactive and clears the room→active index, but — unlike manual End — it
performs no User Stats rollup at all: the profile table is left completely
unchanged, so no participant's `totalSessions` or `totalSeconds` is
updated. -/
theorem c1_amended (sid : String) (st : BotState) (s : StudySession)
    (h : lookupA st.group_sessions sid = some s) :
    lookupA (end_group_session_automatically sid st).group_sessions sid =
      some { s with is_active := false } ∧
    lookupA (end_group_session_automatically sid st).active_sessions s.chat_id = none ∧
    (end_group_session_automatically sid st).user_profiles = st.user_profiles ∧
    (end_private_session_automatically sid st).user_profiles = st.user_profiles := by
  rw [end_group_auto_eq sid st s h, end_private_auto_eq sid st s h]
  exact ⟨lookupA_insertA_self _ _ _, lookupA_eraseA_self _ _, rfl, rfl⟩

/-- C1, witness for the amended theorem, at a concrete one-session state. -/
theorem c1_witness :
    lookupA c1w_st.group_sessions "g" = some c1w_s ∧
    lookupA (end_group_session_automatically "g" c1w_st).group_sessions "g" =
      some { c1w_s with is_active := false } := by
  exact ⟨by decide, (c1_amended "g" c1w_st c1w_s (by decide)).1⟩

/-- C2, counterexample: a session with single participant 7 (stored zeroed
profile) is ended twice; the second End still returns the record without
error, but the rollup runs again, so user 7's `total_sessions` is 2 — not
exactly 1 across the two termination attempts as the claim states. -/
theorem c2_counterexample :
    (end_session noResolver 20 "s" c2_st1).1.isSome = true ∧
    (lookupA c2_st1.group_sessions "s").map (fun s => s.is_active) = some false ∧
    (lookupA c2_st2.user_profiles 7).map (fun p => p.study_stats.total_sessions) = some 2 := by
  decide

/-- C2, amended: ending an already-ended (retained) session does return the
terminal record without error, but termination is not guarded by the active
flag: every End call repeats the full terminal mutation including the stats
rollup, so each call increments each participant's `totalSessions` by 1
again (n calls yield an increase of n, not exactly 1). -/
theorem c2_amended (resolver : Int → Option TgUser) (now : Nat) (sid : String)
    (st : BotState) (s : StudySession) (u : Int) (pr : Participant) (p : UserProfile)
    (h : lookupA st.group_sessions sid = some s)
    (hend : s.is_active = false)
    (hpart : s.participants = [(u, pr)])
    (hprof : lookupA st.user_profiles u = some p) :
    (end_session resolver now sid st).1 =
      some { s with is_active := false, timer_running := false } ∧
    (lookupA (end_session resolver now sid st).2.user_profiles u).map
        (fun q => q.study_stats.total_sessions) =
      some (p.study_stats.total_sessions + 1) := by
  rw [end_session_eq resolver now sid st s h, hpart]
  refine ⟨rfl, ?_⟩
  dsimp only
  rw [List.foldl_cons, List.foldl_nil]
  dsimp only
  rw [update_user_stats_present resolver now u (55 * 60 - s.time_left) _ p (by exact hprof)]
  rfl

/-- C2, witness for the amended theorem: applying it to the state after the
first End shows the second End pushes user 7's total to 2. -/
theorem c2_witness :
    (lookupA c2_st1.group_sessions "s" = some c2_sess1 ∧ c2_sess1.is_active = false) ∧
    (lookupA (end_session noResolver 20 "s" c2_st1).2.user_profiles 7).map
        (fun q => q.study_stats.total_sessions) = some 2 := by
  exact ⟨⟨by decide, by decide⟩,
    (c2_amended noResolver 20 "s" c2_st1 c2_sess1 7 somePart c2_p1
      (by decide) (by decide) (by decide) (by decide)).2⟩

/-- C3, counterexample: chat 100 already has an active session (`p1`,
created by the private start button), yet a second press of the private
start button succeeds and creates `p2`: no `RoomAlreadyActive` failure is
possible on this path (its result type has no error case), and afterwards
two records for the room are simultaneously `active=true`, refuting the
claim that every session-creation operation first checks the room. -/
theorem c3_counterexample :
    get_active_session 100 c3_st1 ≠ none ∧
    (lookupA c3_st2.group_sessions "p1").map (fun s => s.is_active) = some true ∧
    (lookupA c3_st2.group_sessions "p2").map (fun s => s.is_active) = some true ∧
    lookupA c3_st2.active_sessions 100 = some "p2" := by
  decide

/-- C3, amended: only the group `/startsession` command checks the room and
fails with the room-already-active outcome (carrying the existing session,
with no state change); the private start button performs no check at all —
it unconditionally creates a new active session, stores it, and overwrites
the room index with it. -/
theorem c3_amended :
    (∀ (now : Nat) (sid : String) (chat : Int) (creator : TgUser) (st : BotState)
        (s : StudySession),
        get_active_session chat st = some s →
        start_session_group now sid chat creator st = (StartResult.roomAlreadyActive s, st)) ∧
    (∀ (now : Nat) (sid : String) (chat : Int) (user : TgUser) (st : BotState),
        lookupA (start_session_info_private now sid chat user st).2.active_sessions chat =
          some sid ∧
        lookupA (start_session_info_private now sid chat user st).2.group_sessions sid =
          some (start_session_info_private now sid chat user st).1 ∧
        (start_session_info_private now sid chat user st).1.is_active = true) := by
  constructor
  · intro now sid chat creator st s hactive
    unfold start_session_group
    rw [hactive]
  · intro now sid chat user st
    exact ⟨lookupA_insertA_self _ _ _, lookupA_insertA_self _ _ _, rfl⟩

/-- C3, witness: the group command applied to the chat-100 state that
already holds the active private session `p1` refuses with the existing
record and changes nothing. -/
theorem c3_witness :
    get_active_session 100 c3_st1 = some c3_s1 ∧
    start_session_group 5 "g" 100 (tguser 8) c3_st1 =
      (StartResult.roomAlreadyActive c3_s1, c3_st1) := by
  exact ⟨by decide, c3_amended.1 5 "g" 100 (tguser 8) c3_st1 c3_s1 (by decide)⟩

/-- C4: failing input for the code bug.  User 7 owns the active private
session `ps` and presses its end button: the handler answers with a
termination confirmation, yet the session stays `active=true`, the room
index still maps chat 7 to `ps`, and user 7's stored `totalSessions` stays
0 — the handler performs no terminal mutation although its own messages
state the session has ended and the claim requires the terminal
transition. -/
theorem c4_end_user_no_mutation :
    end_session_user "ps" 7 7 c4_st = (EndUserResult.confirmed, c4_st) ∧
    (lookupA c4_st.group_sessions "ps").map (fun s => s.is_active) = some true ∧
    (lookupA (end_session_user "ps" 7 7 c4_st).2.group_sessions "ps").map
      (fun s => s.is_active) = some true ∧
    lookupA (end_session_user "ps" 7 7 c4_st).2.active_sessions 7 = some "ps" ∧
    (lookupA (end_session_user "ps" 7 7 c4_st).2.user_profiles 7).map
      (fun p => p.study_stats.total_sessions) = some 0 := by
  decide

/-- C5, counterexample: the ended (retained) session `e` is extended by its
user: instead of failing with `SessionEnded` and leaving state unchanged,
the handler succeeds, resets `time_left` from 0 back to 3300 and increments
`stats` extension counter from 0 to 1 while the session stays inactive. -/
theorem c5_counterexample :
    c5_sess.is_active = false ∧
    (extend_session "e" 7 7 c5_st).1 = ExtendResult.extended ∧
    (lookupA (extend_session "e" 7 7 c5_st).2.group_sessions "e").map
      (fun s => (s.time_left, s.stats.extens, s.is_active)) = some (3300, 1, false) := by
  decide

/-- C5, amended: Extend fails only when the presser is not the button's
user or the session id is absent from the record store; for a retained
ended session it succeeds — there is no active-flag check — resetting
`remainingSeconds` to the full 3300 and incrementing the extension counter,
while the session remains inactive. -/
theorem c5_amended (sid : String) (uid : Int) (st : BotState) (s : StudySession)
    (h : lookupA st.group_sessions sid = some s) (hend : s.is_active = false) :
    (extend_session sid uid uid st).1 = ExtendResult.extended ∧
    lookupA (extend_session sid uid uid st).2.group_sessions sid =
      some { s with time_left := 55 * 60,
                    stats := { s.stats with extens := s.stats.extens + 1 } } ∧
    ({ s with time_left := (55 * 60 : Int),
              stats := { s.stats with extens := s.stats.extens + 1 } } : StudySession).is_active
      = false := by
  unfold extend_session
  simp [h, lookupA_insertA_self, hend]

/-- C5, witness for the amended theorem at the concrete ended session. -/
theorem c5_witness :
    (lookupA c5_st.group_sessions "e" = some c5_sess ∧ c5_sess.is_active = false) ∧
    (extend_session "e" 7 7 c5_st).1 = ExtendResult.extended := by
  exact ⟨⟨by decide, by decide⟩, (c5_amended "e" 7 c5_st c5_sess (by decide) (by decide)).1⟩

/-- C6: Join is idempotent per user on an active session.  When the user is
already a participant the call returns the already-joined outcome and the
whole state is unchanged (participant count, `stats.joins` and the
process-wide participation counter included); when the user is new, the
call returns Joined, inserts exactly one participant record, and bumps
`stats.joins` and the participation counter by one, after which the user is
a member — so every later call falls into the unchanged branch. -/
theorem c6_join_idempotent (now : Nat) (sid : String) (user : TgUser) (st : BotState)
    (s : StudySession)
    (h : lookupA st.group_sessions sid = some s) (hact : s.is_active = true) :
    (memA s.participants user.id = true →
      join_session now sid user st = (JoinResult.alreadyJoined, st)) ∧
    (memA s.participants user.id = false →
      (join_session now sid user st).1 =
        JoinResult.joined (s.participants.length + 1)
          (decide (3 ≤ s.participants.length + 1) && !s.timer_running) ∧
      (lookupA (join_session now sid user st).2.group_sessions sid).map
        (fun s1 => (s1.participants.length, s1.stats.joins, memA s1.participants user.id)) =
        some (s.participants.length + 1, s.stats.joins + 1, true) ∧
      (join_session now sid user st).2.total_participations = st.total_participations + 1) := by
  constructor
  · intro hmem
    unfold join_session
    rw [h]
    dsimp only
    rw [hact, hmem]
    simp
  · intro hmem
    unfold join_session
    rw [h]
    dsimp only
    rw [hact, hmem]
    have hlen := length_insertA s.participants user.id
      { name := get_display_name user, join_time := now, active := true } hmem
    rw [hlen]
    cases hspawn : decide (3 ≤ s.participants.length + 1) && !s.timer_running with
    | false =>
      simp [hspawn, hlen, lookupA_insertA_self, memA_insertA_self]
    | true =>
      simp [hspawn, hlen, lookupA_insertA_self, memA_insertA_self]

/-- C6, witness: on a concrete active session already containing user 7, a
repeated Join returns the already-joined outcome and leaves the state
untouched. -/
theorem c6_witness :
    (memA c6_sess.participants 7 = true ∧ c6_sess.is_active = true) ∧
    join_session 9 "g" (tguser 7) c6_st = (JoinResult.alreadyJoined, c6_st) := by
  exact ⟨⟨by decide, by decide⟩,
    (c6_join_idempotent 9 "g" (tguser 7) c6_st c6_sess (by decide) (by decide)).1 (by decide)⟩

/-- C7: the group countdown is quorum-gated.  (1) A join to a session whose
timer task is already live never spawns a second timer.  (2) A join that
leaves the count below 3 never spawns a timer and leaves the timer flag as
it was.  (3) In the concrete scenario (group session, quorum 3): after two
joins no timer runs and a tick interval leaves the state — in particular
`time_left` — completely unchanged; the third join reports that it spawned
the timer, and a subsequent tick decrements `time_left` by 60. -/
theorem c7_quorum_gated_timer :
    (∀ (now : Nat) (sid : String) (user : TgUser) (st : BotState) (s : StudySession),
        lookupA st.group_sessions sid = some s → s.is_active = true →
        memA s.participants user.id = false → s.timer_running = true →
        (join_session now sid user st).1 =
          JoinResult.joined (s.participants.length + 1) false) ∧
    (∀ (now : Nat) (sid : String) (user : TgUser) (st : BotState) (s : StudySession),
        lookupA st.group_sessions sid = some s → s.is_active = true →
        memA s.participants user.id = false → s.participants.length + 1 < 3 →
        (join_session now sid user st).1 =
          JoinResult.joined (s.participants.length + 1) false ∧
        (lookupA (join_session now sid user st).2.group_sessions sid).map
          (fun s1 => s1.timer_running) = some s.timer_running) ∧
    ((lookupA c7_st2.group_sessions "g1").map
        (fun s => (s.participants.length, s.timer_running)) = some (2, false) ∧
     tick_interval 10 "g1" c7_st2 = c7_st2 ∧
     c7_join3.1 = JoinResult.joined 3 true ∧
     (lookupA c7_st3.group_sessions "g1").map (fun s => (s.timer_running, s.time_left)) =
        some (true, 3300) ∧
     (lookupA (tick_interval 10 "g1" c7_st3).group_sessions "g1").map (fun s => s.time_left) =
        some 3240) := by
  refine ⟨?_, ?_, ?_⟩
  · intro now sid user st s h hact hmem htimer
    unfold join_session
    rw [h]
    dsimp only
    rw [hact, hmem]
    have hlen := length_insertA s.participants user.id
      { name := get_display_name user, join_time := now, active := true } hmem
    simp [htimer, hlen]
  · intro now sid user st s h hact hmem hlt
    unfold join_session
    rw [h]
    dsimp only
    rw [hact, hmem]
    have hlen := length_insertA s.participants user.id
      { name := get_display_name user, join_time := now, active := true } hmem
    have hno : ¬ (3 ≤ s.participants.length + 1) := by omega
    simp [hlen, hno, lookupA_insertA_self]
  · refine ⟨by decide, by decide, by decide, by decide, by decide⟩

/-- C7, witness: on the concrete post-quorum state (timer live), a fourth
join does not spawn a second timer. -/
theorem c7_witness :
    (lookupA c7_st3.group_sessions "g1" = some c7_sess3 ∧ c7_sess3.timer_running = true) ∧
    (join_session 4 "g1" (tguser 5) c7_st3).1 = JoinResult.joined 4 false := by
  exact ⟨⟨by decide, by decide⟩,
    c7_quorum_gated_timer.1 4 "g1" (tguser 5) c7_st3 c7_sess3
      (by decide) (by decide) (by decide) (by decide)⟩

/-- C8: the stats rollup.  For a user with a stored profile, one call
stores the profile mutated by `record_participation`, which increments
`total_sessions` by 1, adds the elapsed seconds to `total_time`, stamps
`last_session`; exactly when the duration reaches the 3000 s threshold it
also increments `completed_sessions` and appends `first_completion` only
when absent, so the achievement list stays duplicate-free (and a fresh
profile gets exactly one copy). -/
theorem c8_stats_rollup (resolver : Int → Option TgUser) (now : Nat) (uid : Int)
    (d : Int) (st : BotState) (p : UserProfile)
    (h : lookupA st.user_profiles uid = some p) :
    lookupA (update_user_stats resolver now uid d st).user_profiles uid =
      some (record_participation now d p) ∧
    (record_participation now d p).study_stats.total_sessions =
      p.study_stats.total_sessions + 1 ∧
    (record_participation now d p).study_stats.total_time = p.study_stats.total_time + d ∧
    (record_participation now d p).study_stats.last_session = some now ∧
    ((50 * 60 : Int) ≤ d →
      (record_participation now d p).study_stats.completed_sessions =
        p.study_stats.completed_sessions + 1 ∧
      (record_participation now d p).achievements =
        (if "first_completion" ∈ p.achievements then p.achievements
         else p.achievements ++ ["first_completion"]) ∧
      (p.achievements.count "first_completion" ≤ 1 →
        (record_participation now d p).achievements.count "first_completion" ≤ 1) ∧
      ("first_completion" ∉ p.achievements →
        (record_participation now d p).achievements.count "first_completion" = 1)) ∧
    (¬ (50 * 60 : Int) ≤ d →
      (record_participation now d p).study_stats.completed_sessions =
        p.study_stats.completed_sessions ∧
      (record_participation now d p).achievements = p.achievements) := by
  refine ⟨update_user_stats_present resolver now uid d st p h, rfl, rfl, rfl, ?_, ?_⟩
  · intro hd
    norm_num at hd
    by_cases hm : "first_completion" ∈ p.achievements
    · refine ⟨by simp [record_participation, hd],
        by simp [record_participation, hd, hm], ?_, ?_⟩
      · intro hc
        simpa [record_participation, hd, hm] using hc
      · intro habs
        exact absurd hm habs
    · have hz : p.achievements.count "first_completion" = 0 := by
        exact List.count_eq_zero.mpr hm
      refine ⟨by simp [record_participation, hd],
        by simp [record_participation, hd, hm], ?_, ?_⟩
      · intro _
        simp [record_participation, hd, hm, List.count_append, hz]
      · intro _
        simp [record_participation, hd, hm, List.count_append, hz]
  · intro hd
    norm_num at hd
    have hd2 : ¬ ((3000 : Int) ≤ d) := by omega
    exact ⟨by simp [record_participation, hd2], by simp [record_participation, hd2]⟩

/-- C8, witness: one rollup call with elapsed 3000 s on the stored fresh
profile of user 7 persists the mutation, and that mutated profile shows
`completedSessions = 1` and exactly the `first_completion` achievement. -/
theorem c8_witness :
    lookupA c8_st.user_profiles 7 = some (zero_profile 7) ∧
    lookupA (update_user_stats noResolver 5 7 3000 c8_st).user_profiles 7 =
      some (record_participation 5 3000 (zero_profile 7)) ∧
    (record_participation 5 3000 (zero_profile 7)).study_stats.completed_sessions = 1 ∧
    (record_participation 5 3000 (zero_profile 7)).achievements = ["first_completion"] ∧
    (record_participation 5 3000 (zero_profile 7)).study_stats.total_sessions = 1 := by
  exact ⟨by decide,
    (c8_stats_rollup noResolver 5 7 3000 c8_st (zero_profile 7) (by decide)).1,
    by decide, by decide, by decide⟩

/-- C9: termination clears the index but never deletes the record.  After
manual End the room no longer resolves in the active index, the session is
still retrievable by id as the terminal record, `session_status` by id
still resolves and reports inactive, and every other session's record is
untouched; automatic timeout likewise rewrites only this session's record
in the store. -/
theorem c9_index_removal_keeps_record (resolver : Int → Option TgUser) (now : Nat)
    (sid : String) (st : BotState) (s : StudySession)
    (h : lookupA st.group_sessions sid = some s) :
    lookupA (end_session resolver now sid st).2.active_sessions s.chat_id = none ∧
    lookupA (end_session resolver now sid st).2.group_sessions sid =
      some { s with is_active := false, timer_running := false } ∧
    session_status sid (end_session resolver now sid st).2 =
      some { session_id := sid, time_left := s.time_left,
             participant_count := s.participants.length,
             is_active := false, last_update := s.last_update } ∧
    (∀ sid2, sid2 ≠ sid →
      lookupA (end_session resolver now sid st).2.group_sessions sid2 =
        lookupA st.group_sessions sid2) ∧
    lookupA (end_group_session_automatically sid st).group_sessions sid =
      some { s with is_active := false } ∧
    (∀ sid2, sid2 ≠ sid →
      lookupA (end_group_session_automatically sid st).group_sessions sid2 =
        lookupA st.group_sessions sid2) := by
  rw [end_session_eq resolver now sid st s h, end_group_auto_eq sid st s h]
  dsimp only
  refine ⟨?_, ?_, ?_, ?_, ?_, ?_⟩
  · rw [foldl_update_active_sessions]
    exact lookupA_eraseA_self _ _
  · rw [foldl_update_group_sessions]
    exact lookupA_insertA_self _ _ _
  · unfold session_status
    rw [foldl_update_group_sessions, lookupA_insertA_self]
  · intro sid2 hne
    rw [foldl_update_group_sessions]
    exact lookupA_insertA_ne _ _ hne
  · exact lookupA_insertA_self _ _ _
  · intro sid2 hne
    exact lookupA_insertA_ne _ _ hne

/-- C9, witness: at the concrete one-session state, End clears the index
for room 42 while keeping the record retrievable. -/
theorem c9_witness :
    lookupA c9_st.group_sessions "r" = some c9_sess ∧
    lookupA (end_session noResolver 0 "r" c9_st).2.active_sessions 42 = none := by
  exact ⟨by decide, (c9_index_removal_keeps_record noResolver 0 "r" c9_st c9_sess (by decide)).1⟩

theorem create_then_lookup (now : Nat) (u : TgUser) (st : BotState) :
    lookupA (create_user_profile now u st).2.user_profiles u.id =
      some (create_user_profile now u st).1 := by
  unfold create_user_profile
  exact lookupA_insertA_self _ _ _

theorem created_profile_updated (r : Int → Option TgUser) (now : Nat) (u : TgUser)
    (st : BotState) (d : Int) :
    (get_user_profile r now u.id
        (update_user_stats r now u.id d (create_user_profile now u st).2)).1 =
      record_participation now d (create_user_profile now u st).1 := by
  have h2 := update_user_stats_present r now u.id d _ _ (create_then_lookup now u st)
  rw [get_user_profile_hit r now u.id _ _ h2]

/-- C10, amended: `GetUserProfile` creates and stores the profile lazily
only when the identity lookup succeeds; afterwards the stored profile is
returned again and statistics recorded on it between two calls are
preserved.  When the identity lookup fails, the placeholder profile is
returned without being stored and the state is completely unchanged, so
such a user's profile is recreated from zero on every call. -/
theorem c10_lazy_profile (resolver : Int → Option TgUser) (now : Nat) (uid : Int)
    (st : BotState) (u : TgUser)
    (habs : lookupA st.user_profiles uid = none) :
    (resolver uid = some u → u.id = uid →
      lookupA (get_user_profile resolver now uid st).2.user_profiles uid =
        some (get_user_profile resolver now uid st).1 ∧
      (∀ d, (get_user_profile resolver now uid
               (update_user_stats resolver now uid d
                 (get_user_profile resolver now uid st).2)).1 =
            record_participation now d (get_user_profile resolver now uid st).1)) ∧
    (resolver uid = none →
      (get_user_profile resolver now uid st).1 = fallback_profile now uid ∧
      (get_user_profile resolver now uid st).2 = st) := by
  constructor
  · intro hres hid
    subst hid
    have hget : get_user_profile resolver now u.id st = create_user_profile now u st := by
      unfold get_user_profile
      rw [habs, hres]
    rw [hget]
    exact ⟨create_then_lookup now u st, fun d => created_profile_updated resolver now u st d⟩
  · intro hres
    unfold get_user_profile
    rw [habs, hres]
    exact ⟨rfl, rfl⟩

/-- C10, witness: for user 7, whose identity lookup succeeds, the lazily
created profile is stored in the table. -/
theorem c10_witness :
    (c10_res 7 = some (tguser 7) ∧ lookupA st_empty.user_profiles 7 = none) ∧
    lookupA (get_user_profile c10_res 0 7 st_empty).2.user_profiles 7 =
      some (get_user_profile c10_res 0 7 st_empty).1 := by
  exact ⟨⟨by decide, by decide⟩,
    ((c10_lazy_profile c10_res 0 7 st_empty (tguser 7) (by decide)).1
      (by decide) (by decide)).1⟩

/-- C10, counterexample: user 9's identity lookup fails, so the placeholder
profile returned on first contact is NOT stored in the table (refuting the
claim's "including when the identity lookup fails" part), and statistics
recorded in between are lost: after a 3300 s participation is recorded, a
later `GetUserProfile(9)` still reports `total_sessions = 0`. -/
theorem c10_counterexample :
    memA (get_user_profile noResolver 0 9 st_empty).2.user_profiles 9 = false ∧
    (get_user_profile noResolver 0 9 st_empty).1.study_stats.total_sessions = 0 ∧
    (get_user_profile noResolver 5 9
        (update_user_stats noResolver 3 9 3300 c10_st1)).1.study_stats.total_sessions = 0 := by
  decide

end StudyBot
